import Mathlib

/-
Shallow embedding of the ga-cli workflow runner (src/main.rs).

The program is a linear four-step git wrapper: check that `.git` exists,
run `git add .`, acquire a commit message (from the `--message` option or an
interactive prompt), run `git commit -s -m <msg>`, then
`git push origin <branch>` where `<branch>` defaults to "main".

The embedding models each external interaction as data supplied by an
`Env`: the presence of the `.git` marker, and for each subprocess either a
spawn failure (`Except.error e`, the `map_err` branches of the source) or a
captured `CmdOutput`.  Each `run_git_*` function returns its `Result`, the
subprocess invocations it performs, and the lines it prints (ANSI colour
codes elided, format strings already substituted).  `mainRun` mirrors `main`
and returns the process exit code (`ExitCode::SUCCESS` = 0,
`ExitCode::FAILURE` = 1), the full subprocess trace, the error lines printed
via `eprintln!` (without the "Error:" prefix decoration), and the stdout
lines.
-/

/-- Captured outcome of a spawned subprocess, as `std::process::Output` is
used by the source: exit-status success flag and the lossy-decoded stdout
and stderr texts. -/
structure CmdOutput where
  success : Bool
  stdout : String
  stderr : String
  deriving DecidableEq, Repr

/-- One subprocess invocation together with the arguments the source passes:
`git add .`, `git commit -s -m <message>`, or `git push <remote> <branch>`. -/
inductive GitCmd where
  | add : GitCmd
  | commit : String → GitCmd
  | push : String → String → GitCmd
  deriving DecidableEq, Repr

/-- The parsed command-line arguments (`struct Args` of the source). -/
structure Args where
  message : Option String
  origin : Option String
  verbose : Bool

/-- The ambient world a single run observes: whether the `.git` directory
exists, the outcome of each subprocess the run may spawn, and the result of
the interactive prompt (`dialoguer::Input::interact_text`). -/
structure Env where
  gitDirExists : Bool
  addExec : Except String CmdOutput
  promptResult : Except String String
  commitExec : Except String CmdOutput
  pushExec : Except String CmdOutput

/-- Outcome of one step helper: its `Result`, the subprocess invocations it
attempted, and the stdout lines it printed. -/
structure StepResult where
  res : Except String Unit
  calls : List GitCmd
  printed : List String

/-- Outcome of a whole run of `main`: process exit code, subprocess trace,
error lines, stdout lines. -/
structure RunResult where
  exitCode : Nat
  calls : List GitCmd
  errors : List String
  printed : List String

/-- Rust `str::trim`: the string with leading and trailing whitespace
removed (implemented over the character list so that it evaluates in the
kernel). -/
def trim (s : String) : String :=
  ⟨((s.data.dropWhile Char.isWhitespace).reverse.dropWhile Char.isWhitespace).reverse⟩

/-- Rust `str::contains` with a string pattern: `pat` occurs somewhere in
`s` as a contiguous substring. -/
def strContains (s pat : String) : Bool :=
  decide (pat.data <:+: s.data)

/-- `run_git_add` of the source: spawn `git add .`; on spawn failure or
non-success exit status return the corresponding error, otherwise succeed,
echoing the captured stdout when verbose and non-empty. -/
def run_git_add (verbose : Bool) (exec : Except String CmdOutput) : StepResult :=
  match exec with
  | Except.error e =>
      ⟨Except.error ("Failed to execute git add: " ++ e), [GitCmd.add],
        ["→ Running git add ."]⟩
  | Except.ok output =>
      if !output.success then
        ⟨Except.error ("git add failed: " ++ output.stderr), [GitCmd.add],
          ["→ Running git add ."]⟩
      else
        ⟨Except.ok (), [GitCmd.add],
          ["→ Running git add ."] ++
            (if verbose && !output.stdout.isEmpty then [output.stdout] else []) ++
            ["✓ Staged all changes"]⟩

/-- `get_commit_message` of the source: a supplied message is rejected when
empty after trimming and otherwise returned unchanged; with no supplied
message the prompt is consulted, read failures are reported, and the entered
text passes through the same empty-after-trim validation. -/
def get_commit_message (message : Option String) (promptResult : Except String String) :
    Except String String × List String :=
  match message with
  | some msg =>
      (if (trim msg).isEmpty then Except.error "Commit message cannot be empty"
       else Except.ok msg, [])
  | none =>
      (match promptResult with
       | Except.error e => Except.error ("Failed to read input: " ++ e)
       | Except.ok msg =>
           if (trim msg).isEmpty then Except.error "Commit message cannot be empty"
           else Except.ok msg,
       ["→ Commit message required"])

/-- `run_git_commit` of the source: spawn `git commit -s -m <message>`; on a
non-success status report the special "Nothing to commit, working tree
clean" error when the stderr text contains "nothing to commit" and the raw
stderr as a generic failure otherwise; on success echo stdout when
verbose. -/
def run_git_commit (message : String) (verbose : Bool) (exec : Except String CmdOutput) :
    StepResult :=
  match exec with
  | Except.error e =>
      ⟨Except.error ("Failed to execute git commit: " ++ e), [GitCmd.commit message],
        ["→ Committing with message: \"" ++ message ++ "\""]⟩
  | Except.ok output =>
      if !output.success then
        if strContains output.stderr "nothing to commit" then
          ⟨Except.error "Nothing to commit, working tree clean", [GitCmd.commit message],
            ["→ Committing with message: \"" ++ message ++ "\""]⟩
        else
          ⟨Except.error ("git commit failed: " ++ output.stderr), [GitCmd.commit message],
            ["→ Committing with message: \"" ++ message ++ "\""]⟩
      else
        ⟨Except.ok (), [GitCmd.commit message],
          ["→ Committing with message: \"" ++ message ++ "\""] ++
            (if verbose then [output.stdout] else []) ++
            ["✓ Commit created"]⟩

/-- `run_git_push` of the source: spawn `git push origin <branch>`; on a
non-success status report the raw stderr; on success, when verbose, echo the
captured stdout and stderr, each only when non-empty. -/
def run_git_push (branch : String) (verbose : Bool) (exec : Except String CmdOutput) :
    StepResult :=
  match exec with
  | Except.error e =>
      ⟨Except.error ("Failed to execute git push: " ++ e), [GitCmd.push "origin" branch],
        ["→ Pushing to origin/" ++ branch]⟩
  | Except.ok output =>
      if !output.success then
        ⟨Except.error ("git push failed: " ++ output.stderr), [GitCmd.push "origin" branch],
          ["→ Pushing to origin/" ++ branch]⟩
      else
        ⟨Except.ok (), [GitCmd.push "origin" branch],
          ["→ Pushing to origin/" ++ branch] ++
            (if verbose then
              (if !output.stdout.isEmpty then [output.stdout] else []) ++
                (if !output.stderr.isEmpty then [output.stderr] else [])
             else []) ++
            ["✓ Pushed to origin/" ++ branch]⟩

/-- `main` of the source: fail if `.git` is absent, then run staging,
message acquisition, commit and push in order, stopping at the first error;
print the success confirmation and return exit code 0 only when every step
succeeded, and exit code 1 on any failure. -/
def mainRun (args : Args) (env : Env) : RunResult :=
  if !env.gitDirExists then
    ⟨1, [], ["Not a git repository. No .git directory found."], []⟩
  else
    match (run_git_add args.verbose env.addExec).res with
    | Except.error e =>
        ⟨1, (run_git_add args.verbose env.addExec).calls, [e],
          (run_git_add args.verbose env.addExec).printed⟩
    | Except.ok _ =>
      match (get_commit_message args.message env.promptResult).1 with
      | Except.error e =>
          ⟨1, (run_git_add args.verbose env.addExec).calls, [e],
            (run_git_add args.verbose env.addExec).printed ++
              (get_commit_message args.message env.promptResult).2⟩
      | Except.ok message =>
        match (run_git_commit message args.verbose env.commitExec).res with
        | Except.error e =>
            ⟨1, (run_git_add args.verbose env.addExec).calls ++
                  (run_git_commit message args.verbose env.commitExec).calls, [e],
              (run_git_add args.verbose env.addExec).printed ++
                (get_commit_message args.message env.promptResult).2 ++
                (run_git_commit message args.verbose env.commitExec).printed⟩
        | Except.ok _ =>
          match (run_git_push (args.origin.getD "main") args.verbose env.pushExec).res with
          | Except.error e =>
              ⟨1, (run_git_add args.verbose env.addExec).calls ++
                    (run_git_commit message args.verbose env.commitExec).calls ++
                    (run_git_push (args.origin.getD "main") args.verbose env.pushExec).calls, [e],
                (run_git_add args.verbose env.addExec).printed ++
                  (get_commit_message args.message env.promptResult).2 ++
                  (run_git_commit message args.verbose env.commitExec).printed ++
                  (run_git_push (args.origin.getD "main") args.verbose env.pushExec).printed⟩
          | Except.ok _ =>
              ⟨0, (run_git_add args.verbose env.addExec).calls ++
                    (run_git_commit message args.verbose env.commitExec).calls ++
                    (run_git_push (args.origin.getD "main") args.verbose env.pushExec).calls, [],
                (run_git_add args.verbose env.addExec).printed ++
                  (get_commit_message args.message env.promptResult).2 ++
                  (run_git_commit message args.verbose env.commitExec).printed ++
                  (run_git_push (args.origin.getD "main") args.verbose env.pushExec).printed ++
                  ["✓ Successfully pushed the code!"]⟩

/-! ### Basic facts about the step helpers -/

lemma run_git_add_calls (v : Bool) (e : Except String CmdOutput) :
    (run_git_add v e).calls = [GitCmd.add] := by
  unfold run_git_add
  cases e with
  | error e => rfl
  | ok o =>
      dsimp only
      split <;> rfl

lemma run_git_commit_calls (m : String) (v : Bool) (e : Except String CmdOutput) :
    (run_git_commit m v e).calls = [GitCmd.commit m] := by
  unfold run_git_commit
  cases e with
  | error e => rfl
  | ok o =>
      dsimp only
      split
      · split <;> rfl
      · rfl

lemma run_git_push_calls (b : String) (v : Bool) (e : Except String CmdOutput) :
    (run_git_push b v e).calls = [GitCmd.push "origin" b] := by
  unfold run_git_push
  cases e with
  | error e => rfl
  | ok o =>
      dsimp only
      split <;> rfl

lemma get_commit_message_ok_trim {msg : Option String} {pr : Except String String} {m : String}
    (h : (get_commit_message msg pr).1 = Except.ok m) : (trim m).isEmpty = false := by
  cases msg with
  | some s =>
      cases hT : (trim s).isEmpty with
      | true => simp [get_commit_message, hT] at h
      | false =>
          simp [get_commit_message, hT] at h
          subst h
          exact hT
  | none =>
      cases pr with
      | error e => simp [get_commit_message] at h
      | ok s =>
          cases hT : (trim s).isEmpty with
          | true => simp [get_commit_message, hT] at h
          | false =>
              simp [get_commit_message, hT] at h
              subst h
              exact hT

lemma get_commit_message_some {msg : Option String} {pr : Except String String} {s : String}
    (h : msg = some s) (ht : (trim s).isEmpty = false) :
    (get_commit_message msg pr).1 = Except.ok s := by
  subst h
  simp [get_commit_message, ht]

lemma get_commit_message_some_eq {msg : Option String} {pr : Except String String}
    {s m : String} (h : msg = some s) (hm : (get_commit_message msg pr).1 = Except.ok m) :
    m = s := by
  subst h
  cases hT : (trim s).isEmpty with
  | true => simp [get_commit_message, hT] at hm
  | false =>
      simp [get_commit_message, hT] at hm
      exact hm.symm

/-! ### Equation lemmas for `mainRun`, one per exit path -/

lemma mainRun_noRepo (args : Args) (env : Env) (h : env.gitDirExists = false) :
    mainRun args env = ⟨1, [], ["Not a git repository. No .git directory found."], []⟩ := by
  unfold mainRun
  rw [h]
  rfl

lemma mainRun_addFail (args : Args) (env : Env) {e : String}
    (hg : env.gitDirExists = true)
    (hA : (run_git_add args.verbose env.addExec).res = Except.error e) :
    mainRun args env =
      ⟨1, [GitCmd.add], [e], (run_git_add args.verbose env.addExec).printed⟩ := by
  simp [mainRun, hg, hA, run_git_add_calls]

lemma mainRun_msgFail (args : Args) (env : Env) {e : String}
    (hg : env.gitDirExists = true)
    (hA : (run_git_add args.verbose env.addExec).res = Except.ok ())
    (hM : (get_commit_message args.message env.promptResult).1 = Except.error e) :
    mainRun args env =
      ⟨1, [GitCmd.add], [e],
        (run_git_add args.verbose env.addExec).printed ++
          (get_commit_message args.message env.promptResult).2⟩ := by
  simp [mainRun, hg, hA, hM, run_git_add_calls]

lemma mainRun_commitFail (args : Args) (env : Env) {m e : String}
    (hg : env.gitDirExists = true)
    (hA : (run_git_add args.verbose env.addExec).res = Except.ok ())
    (hM : (get_commit_message args.message env.promptResult).1 = Except.ok m)
    (hC : (run_git_commit m args.verbose env.commitExec).res = Except.error e) :
    mainRun args env =
      ⟨1, [GitCmd.add, GitCmd.commit m], [e],
        (run_git_add args.verbose env.addExec).printed ++
          (get_commit_message args.message env.promptResult).2 ++
          (run_git_commit m args.verbose env.commitExec).printed⟩ := by
  simp [mainRun, hg, hA, hM, hC, run_git_add_calls, run_git_commit_calls]

lemma mainRun_pushFail (args : Args) (env : Env) {m e : String}
    (hg : env.gitDirExists = true)
    (hA : (run_git_add args.verbose env.addExec).res = Except.ok ())
    (hM : (get_commit_message args.message env.promptResult).1 = Except.ok m)
    (hC : (run_git_commit m args.verbose env.commitExec).res = Except.ok ())
    (hP : (run_git_push (args.origin.getD "main") args.verbose env.pushExec).res =
      Except.error e) :
    mainRun args env =
      ⟨1, [GitCmd.add, GitCmd.commit m, GitCmd.push "origin" (args.origin.getD "main")], [e],
        (run_git_add args.verbose env.addExec).printed ++
          (get_commit_message args.message env.promptResult).2 ++
          (run_git_commit m args.verbose env.commitExec).printed ++
          (run_git_push (args.origin.getD "main") args.verbose env.pushExec).printed⟩ := by
  simp [mainRun, hg, hA, hM, hC, hP, run_git_add_calls, run_git_commit_calls,
    run_git_push_calls]

lemma mainRun_allOk (args : Args) (env : Env) {m : String}
    (hg : env.gitDirExists = true)
    (hA : (run_git_add args.verbose env.addExec).res = Except.ok ())
    (hM : (get_commit_message args.message env.promptResult).1 = Except.ok m)
    (hC : (run_git_commit m args.verbose env.commitExec).res = Except.ok ())
    (hP : (run_git_push (args.origin.getD "main") args.verbose env.pushExec).res =
      Except.ok ()) :
    mainRun args env =
      ⟨0, [GitCmd.add, GitCmd.commit m, GitCmd.push "origin" (args.origin.getD "main")], [],
        (run_git_add args.verbose env.addExec).printed ++
          (get_commit_message args.message env.promptResult).2 ++
          (run_git_commit m args.verbose env.commitExec).printed ++
          (run_git_push (args.origin.getD "main") args.verbose env.pushExec).printed ++
          ["✓ Successfully pushed the code!"]⟩ := by
  simp [mainRun, hg, hA, hM, hC, hP, run_git_add_calls, run_git_commit_calls,
    run_git_push_calls]

/-- Exhaustive case analysis of a run: exactly one of the six exit paths of
`main` is taken, and on each path the exit code, the subprocess trace and
the reported error are as the source dictates. -/
lemma mainRun_cases (args : Args) (env : Env) :
    (env.gitDirExists = false ∧
       mainRun args env = ⟨1, [], ["Not a git repository. No .git directory found."], []⟩) ∨
    (∃ e, env.gitDirExists = true ∧
       (run_git_add args.verbose env.addExec).res = Except.error e ∧
       (mainRun args env).exitCode = 1 ∧ (mainRun args env).calls = [GitCmd.add] ∧
       (mainRun args env).errors = [e]) ∨
    (∃ e, env.gitDirExists = true ∧
       (run_git_add args.verbose env.addExec).res = Except.ok () ∧
       (get_commit_message args.message env.promptResult).1 = Except.error e ∧
       (mainRun args env).exitCode = 1 ∧ (mainRun args env).calls = [GitCmd.add] ∧
       (mainRun args env).errors = [e]) ∨
    (∃ m e, env.gitDirExists = true ∧
       (run_git_add args.verbose env.addExec).res = Except.ok () ∧
       (get_commit_message args.message env.promptResult).1 = Except.ok m ∧
       (run_git_commit m args.verbose env.commitExec).res = Except.error e ∧
       (mainRun args env).exitCode = 1 ∧
       (mainRun args env).calls = [GitCmd.add, GitCmd.commit m] ∧
       (mainRun args env).errors = [e]) ∨
    (∃ m e, env.gitDirExists = true ∧
       (run_git_add args.verbose env.addExec).res = Except.ok () ∧
       (get_commit_message args.message env.promptResult).1 = Except.ok m ∧
       (run_git_commit m args.verbose env.commitExec).res = Except.ok () ∧
       (run_git_push (args.origin.getD "main") args.verbose env.pushExec).res =
         Except.error e ∧
       (mainRun args env).exitCode = 1 ∧
       (mainRun args env).calls =
         [GitCmd.add, GitCmd.commit m, GitCmd.push "origin" (args.origin.getD "main")] ∧
       (mainRun args env).errors = [e]) ∨
    (∃ m, env.gitDirExists = true ∧
       (run_git_add args.verbose env.addExec).res = Except.ok () ∧
       (get_commit_message args.message env.promptResult).1 = Except.ok m ∧
       (run_git_commit m args.verbose env.commitExec).res = Except.ok () ∧
       (run_git_push (args.origin.getD "main") args.verbose env.pushExec).res =
         Except.ok () ∧
       (mainRun args env).exitCode = 0 ∧
       (mainRun args env).calls =
         [GitCmd.add, GitCmd.commit m, GitCmd.push "origin" (args.origin.getD "main")] ∧
       (mainRun args env).errors = [] ∧
       "✓ Successfully pushed the code!" ∈ (mainRun args env).printed) := by
  cases hg : env.gitDirExists with
  | false => exact Or.inl ⟨rfl, mainRun_noRepo args env hg⟩
  | true =>
    cases hA : (run_git_add args.verbose env.addExec).res with
    | error e =>
        have h := mainRun_addFail args env hg hA
        exact Or.inr (Or.inl ⟨e, rfl, rfl, by rw [h], by rw [h], by rw [h]⟩)
    | ok u =>
      cases u
      cases hM : (get_commit_message args.message env.promptResult).1 with
      | error e =>
          have h := mainRun_msgFail args env hg hA hM
          exact Or.inr (Or.inr (Or.inl ⟨e, rfl, rfl, rfl, by rw [h], by rw [h], by rw [h]⟩))
      | ok m =>
        cases hC : (run_git_commit m args.verbose env.commitExec).res with
        | error e =>
            have h := mainRun_commitFail args env hg hA hM hC
            exact Or.inr (Or.inr (Or.inr (Or.inl
              ⟨m, e, rfl, rfl, rfl, hC, by rw [h], by rw [h], by rw [h]⟩)))
        | ok u =>
          cases u
          cases hP : (run_git_push (args.origin.getD "main") args.verbose env.pushExec).res with
          | error e =>
              have h := mainRun_pushFail args env hg hA hM hC hP
              exact Or.inr (Or.inr (Or.inr (Or.inr (Or.inl
                ⟨m, e, rfl, rfl, rfl, hC, rfl, by rw [h], by rw [h], by rw [h]⟩))))
          | ok u =>
              cases u
              have h := mainRun_allOk args env hg hA hM hC hP
              exact Or.inr (Or.inr (Or.inr (Or.inr (Or.inr
                ⟨m, rfl, rfl, rfl, hC, rfl, by rw [h], by rw [h], by rw [h],
                  by rw [h]; simp⟩))))

/-! ### Facts about the subprocess trace and exit code of a run -/

lemma commit_call_acquired {args : Args} {env : Env} {s : String}
    (h : GitCmd.commit s ∈ (mainRun args env).calls) :
    (get_commit_message args.message env.promptResult).1 = Except.ok s := by
  rcases mainRun_cases args env with ⟨_, heq⟩ | ⟨e, _, _, _, hc, _⟩ | ⟨e, _, _, _, _, hc, _⟩ |
    ⟨m, e, _, _, hM, _, _, hc, _⟩ | ⟨m, e, _, _, hM, _, _, _, hc, _⟩ |
    ⟨m, _, _, hM, _, _, _, hc, _, _⟩
  · rw [heq] at h
    simp at h
  · rw [hc] at h
    simp at h
  · rw [hc] at h
    simp at h
  · rw [hc] at h
    simp at h
    rw [h]
    exact hM
  · rw [hc] at h
    simp at h
    rw [h]
    exact hM
  · rw [hc] at h
    simp at h
    rw [h]
    exact hM

lemma push_call_shape {args : Args} {env : Env} {r b : String}
    (h : GitCmd.push r b ∈ (mainRun args env).calls) :
    r = "origin" ∧ b = args.origin.getD "main" := by
  rcases mainRun_cases args env with ⟨_, heq⟩ | ⟨e, _, _, _, hc, _⟩ | ⟨e, _, _, _, _, hc, _⟩ |
    ⟨m, e, _, _, _, _, _, hc, _⟩ | ⟨m, e, _, _, _, _, _, _, hc, _⟩ |
    ⟨m, _, _, _, _, _, _, hc, _, _⟩
  · rw [heq] at h
    simp at h
  · rw [hc] at h
    simp at h
  · rw [hc] at h
    simp at h
  · rw [hc] at h
    simp at h
  · rw [hc] at h
    simp at h
    exact h
  · rw [hc] at h
    simp at h
    exact h

lemma exitCode_zero_iff (args : Args) (env : Env) :
    (mainRun args env).exitCode = 0 ↔
      (env.gitDirExists = true ∧
       (run_git_add args.verbose env.addExec).res = Except.ok () ∧
       ∃ m, (get_commit_message args.message env.promptResult).1 = Except.ok m ∧
         (run_git_commit m args.verbose env.commitExec).res = Except.ok () ∧
         (run_git_push (args.origin.getD "main") args.verbose env.pushExec).res =
           Except.ok ()) := by
  constructor
  · intro h0
    rcases mainRun_cases args env with ⟨_, heq⟩ | ⟨e, _, _, hx, _⟩ | ⟨e, _, _, _, hx, _⟩ |
      ⟨m, e, _, _, _, _, hx, _⟩ | ⟨m, e, _, _, _, _, _, hx, _⟩ |
      ⟨m, hg, hA, hM, hC, hP, _, _, _, _⟩
    · rw [heq] at h0
      simp at h0
    · rw [hx] at h0
      simp at h0
    · rw [hx] at h0
      simp at h0
    · rw [hx] at h0
      simp at h0
    · rw [hx] at h0
      simp at h0
    · exact ⟨hg, hA, m, hM, hC, hP⟩
  · rintro ⟨hg, hA, m, hM, hC, hP⟩
    rw [mainRun_allOk args env hg hA hM hC hP]

lemma exitCode_zero_or_one (args : Args) (env : Env) :
    (mainRun args env).exitCode = 0 ∨ (mainRun args env).exitCode = 1 := by
  rcases mainRun_cases args env with ⟨_, heq⟩ | ⟨e, _, _, hx, _⟩ | ⟨e, _, _, _, hx, _⟩ |
    ⟨m, e, _, _, _, _, hx, _⟩ | ⟨m, e, _, _, _, _, _, hx, _⟩ |
    ⟨m, _, _, _, _, _, hx, _⟩
  · rw [heq]
    right
    rfl
  · exact Or.inr hx
  · exact Or.inr hx
  · exact Or.inr hx
  · exact Or.inr hx
  · exact Or.inl hx

/-! ### The character stream of the printed lines -/

/-- The character stream produced by printing a list of lines in order,
each line followed by a newline (as `println!` does). -/
def emitted (ls : List String) : List Char :=
  ls.foldr (fun s acc => s.data ++ ('\n' :: acc)) []

lemma emitted_cons (a : String) (t : List String) :
    emitted (a :: t) = a.data ++ ('\n' :: emitted t) := rfl

lemma mem_emitted {s : String} {ls : List String} (h : s ∈ ls) :
    s.data <:+: emitted ls := by
  induction ls with
  | nil => cases h
  | cons a t ih =>
      rcases List.mem_cons.mp h with h1 | h2
      · subst h1
        exact ⟨[], '\n' :: emitted t, by simp [emitted_cons]⟩
      · rcases ih h2 with ⟨u, v, huv⟩
        exact ⟨a.data ++ '\n' :: u, v, by simp [emitted_cons, ← huv]⟩

/-! ### Facts about the commit error strings -/

lemma generic_commit_error_ne (s : String) :
    "git commit failed: " ++ s ≠ "Nothing to commit, working tree clean" := by
  intro hEq
  have hd := congrArg String.data hEq
  rw [String.data_append] at hd
  have h1 : ("git commit failed: ".data ++ s.data).head? = some 'g' := rfl
  rw [hd] at h1
  exact absurd h1 (by decide)

lemma strContains_iff (s pat : String) :
    strContains s pat = true ↔ pat.data <:+: s.data := by
  simp [strContains]

/-! ### Concrete fixtures used by the witness theorems -/

/-- A run where every external interaction succeeds. -/
def envAllOk : Env :=
  ⟨true, Except.ok ⟨true, "", ""⟩, Except.ok "prompted message",
    Except.ok ⟨true, "", ""⟩, Except.ok ⟨true, "", ""⟩⟩

/-- Arguments with a supplied (padded) message and an explicit branch. -/
def argsM : Args := ⟨some "  fix bug  ", some "feature-x", false⟩

/-- Arguments whose supplied message is whitespace-only. -/
def argsEmptyMsg : Args := ⟨some "   ", none, false⟩

/-- A run where spawning `git add` fails. -/
def envAddFail : Env :=
  ⟨true, Except.error "spawn failed", Except.ok "prompted message",
    Except.ok ⟨true, "", ""⟩, Except.ok ⟨true, "", ""⟩⟩

/-- A run outside a git repository. -/
def envNoRepo : Env :=
  ⟨false, Except.ok ⟨true, "", ""⟩, Except.ok "prompted message",
    Except.ok ⟨true, "", ""⟩, Except.ok ⟨true, "", ""⟩⟩

/-- A failed `git commit` whose stderr reports a clean working tree. -/
def cleanOut : CmdOutput :=
  ⟨false, "", "On branch main: nothing to commit, working tree clean"⟩

/-- A run where `git commit` fails with a clean working tree. -/
def envCommitClean : Env :=
  ⟨true, Except.ok ⟨true, "", ""⟩, Except.ok "prompted message",
    Except.ok cleanOut, Except.ok ⟨true, "", ""⟩⟩

/-- A successful `git push` that wrote to both streams. -/
def okOut : CmdOutput := ⟨true, "push stdout", "push stderr"⟩

/-! ### The claims -/

/-- Claim C1: a supplied commit message that is non-empty after trimming is
accepted by message acquisition exactly as given — the original untrimmed
string — every commit invocation of the run carries that original string,
and once the repository marker is present and staging succeeds the commit is
indeed invoked with it. -/
theorem supplied_message_passed_untrimmed (m : String) (args : Args) (env : Env)
    (hm : args.message = some m) (ht : (trim m).isEmpty = false) :
    (get_commit_message args.message env.promptResult).1 = Except.ok m ∧
    (∀ s, GitCmd.commit s ∈ (mainRun args env).calls → s = m) ∧
    (env.gitDirExists = true →
      (run_git_add args.verbose env.addExec).res = Except.ok () →
      GitCmd.commit m ∈ (mainRun args env).calls) := by
  have hok : (get_commit_message args.message env.promptResult).1 = Except.ok m :=
    get_commit_message_some hm ht
  refine ⟨hok, ?_, ?_⟩
  · intro s hs
    have h2 := commit_call_acquired hs
    rw [hok] at h2
    exact (Except.ok.inj h2).symm
  · intro hg hA
    cases hC : (run_git_commit m args.verbose env.commitExec).res with
    | error e =>
        rw [mainRun_commitFail args env hg hA hok hC]
        simp
    | ok u =>
        cases u
        cases hP : (run_git_push (args.origin.getD "main") args.verbose env.pushExec).res with
        | error e =>
            rw [mainRun_pushFail args env hg hA hok hC hP]
            simp
        | ok u =>
            cases u
            rw [mainRun_allOk args env hg hA hok hC hP]
            simp

/-- Witness for claim C1 at the supplied message "  fix bug  ". -/
theorem supplied_message_witness :
    (get_commit_message argsM.message envAllOk.promptResult).1 = Except.ok "  fix bug  " ∧
    (∀ s, GitCmd.commit s ∈ (mainRun argsM envAllOk).calls → s = "  fix bug  ") ∧
    (envAllOk.gitDirExists = true →
      (run_git_add argsM.verbose envAllOk.addExec).res = Except.ok () →
      GitCmd.commit "  fix bug  " ∈ (mainRun argsM envAllOk).calls) :=
  supplied_message_passed_untrimmed "  fix bug  " argsM envAllOk rfl (by decide)

/-- Claim C2 (amended): a message that is empty after trimming — supplied or
entered at the prompt — makes acquisition fail with the validation error
"Commit message cannot be empty" (the code capitalises "Commit"; the claim
as stated quotes it lowercase), the run exits with code 1, and the commit
operation is never invoked. -/
theorem empty_message_rejected (args : Args) (env : Env)
    (h : (∃ m, args.message = some m ∧ (trim m).isEmpty = true) ∨
         (args.message = none ∧
           ∃ s, env.promptResult = Except.ok s ∧ (trim s).isEmpty = true)) :
    (get_commit_message args.message env.promptResult).1 =
      Except.error "Commit message cannot be empty" ∧
    (mainRun args env).exitCode = 1 ∧
    ∀ s, GitCmd.commit s ∉ (mainRun args env).calls := by
  have herr : (get_commit_message args.message env.promptResult).1 =
      Except.error "Commit message cannot be empty" := by
    rcases h with ⟨m, hm, hT⟩ | ⟨hn, s, hp, hT⟩
    · simp [get_commit_message, hm, hT]
    · simp [get_commit_message, hn, hp, hT]
  refine ⟨herr, ?_, ?_⟩
  · rcases exitCode_zero_or_one args env with h0 | h1
    · exfalso
      rcases (exitCode_zero_iff args env).mp h0 with ⟨_, _, m, hM, _⟩
      rw [herr] at hM
      simp at hM
    · exact h1
  · intro s hs
    have h2 := commit_call_acquired hs
    rw [herr] at h2
    simp at h2

/-- Counterexample to claim C2 as stated: at the supplied message " " the
acquisition fails, but with the error text "Commit message cannot be empty",
not the claimed exact text "commit message cannot be empty". -/
theorem empty_message_error_text_cex :
    (get_commit_message (some " ") (Except.ok "x")).1 ≠
      Except.error "commit message cannot be empty" ∧
    (get_commit_message (some " ") (Except.ok "x")).1 =
      Except.error "Commit message cannot be empty" := by
  constructor
  · intro hEq
    have h0 : (get_commit_message (some " ") (Except.ok "x")).1 =
        Except.error "Commit message cannot be empty" := rfl
    rw [h0] at hEq
    have h1 : "Commit message cannot be empty" = "commit message cannot be empty" :=
      Except.error.inj hEq
    exact absurd h1 (by decide)
  · rfl

/-- Witness for claim C2 (amended) at the whitespace-only message "   ". -/
theorem empty_message_witness :
    (get_commit_message argsEmptyMsg.message envAllOk.promptResult).1 =
      Except.error "Commit message cannot be empty" ∧
    (mainRun argsEmptyMsg envAllOk).exitCode = 1 ∧
    ∀ s, GitCmd.commit s ∉ (mainRun argsEmptyMsg envAllOk).calls :=
  empty_message_rejected argsEmptyMsg envAllOk (Or.inl ⟨"   ", rfl, by decide⟩)

/-- Claim C3: execution short-circuits — when staging fails the run exits 1
and neither the commit nor the push subprocess is ever invoked, and when the
commit step fails the run exits 1 and the push subprocess is never
invoked. -/
theorem short_circuit (args : Args) (env : Env) :
    ((run_git_add args.verbose env.addExec).res ≠ Except.ok () →
      (mainRun args env).exitCode = 1 ∧
      (∀ s, GitCmd.commit s ∉ (mainRun args env).calls) ∧
      (∀ r b, GitCmd.push r b ∉ (mainRun args env).calls)) ∧
    ((∀ m, (run_git_commit m args.verbose env.commitExec).res ≠ Except.ok ()) →
      (mainRun args env).exitCode = 1 ∧
      (∀ r b, GitCmd.push r b ∉ (mainRun args env).calls)) := by
  constructor
  · intro hA
    rcases mainRun_cases args env with ⟨_, heq⟩ | ⟨e, _, _, hx, hc, _⟩ |
      ⟨e, _, hAo, _, hx, hc, _⟩ | ⟨m, e, _, hAo, _, _, hx, hc, _⟩ |
      ⟨m, e, _, hAo, _, _, _, hx, hc, _⟩ | ⟨m, _, hAo, _, _, _, hx, hc, _, _⟩
    · refine ⟨by rw [heq], ?_, ?_⟩
      · intro s hs
        rw [heq] at hs
        simp at hs
      · intro r b hb
        rw [heq] at hb
        simp at hb
    · refine ⟨hx, ?_, ?_⟩
      · intro s hs
        rw [hc] at hs
        simp at hs
      · intro r b hb
        rw [hc] at hb
        simp at hb
    · exact absurd hAo hA
    · exact absurd hAo hA
    · exact absurd hAo hA
    · exact absurd hAo hA
  · intro hC
    rcases mainRun_cases args env with ⟨_, heq⟩ | ⟨e, _, _, hx, hc, _⟩ |
      ⟨e, _, _, _, hx, hc, _⟩ | ⟨m, e, _, _, _, _, hx, hc, _⟩ |
      ⟨m, e, _, _, _, hCo, _, _, _, _⟩ | ⟨m, _, _, _, hCo, _, _, _, _, _⟩
    · refine ⟨by rw [heq], ?_⟩
      intro r b hb
      rw [heq] at hb
      simp at hb
    · refine ⟨hx, ?_⟩
      intro r b hb
      rw [hc] at hb
      simp at hb
    · refine ⟨hx, ?_⟩
      intro r b hb
      rw [hc] at hb
      simp at hb
    · refine ⟨hx, ?_⟩
      intro r b hb
      rw [hc] at hb
      simp at hb
    · exact absurd hCo (hC m)
    · exact absurd hCo (hC m)

/-- Witness for claim C3: a run whose `git add` spawn fails exits 1 and
invokes neither commit nor push. -/
theorem short_circuit_witness :
    (mainRun argsM envAddFail).exitCode = 1 ∧
    (∀ s, GitCmd.commit s ∉ (mainRun argsM envAddFail).calls) ∧
    (∀ r b, GitCmd.push r b ∉ (mainRun argsM envAddFail).calls) :=
  (short_circuit argsM envAddFail).1 (by simp [argsM, envAddFail, run_git_add])

/-- Claim C4: with no `.git` marker present the run reports the
not-a-repository error, exits with code 1, and performs zero subprocess
invocations. -/
theorem no_repo_aborts (args : Args) (env : Env) (h : env.gitDirExists = false) :
    mainRun args env =
      ⟨1, [], ["Not a git repository. No .git directory found."], []⟩ :=
  mainRun_noRepo args env h

/-- Witness for claim C4. -/
theorem no_repo_witness :
    mainRun argsM envNoRepo =
      ⟨1, [], ["Not a git repository. No .git directory found."], []⟩ :=
  no_repo_aborts argsM envNoRepo rfl

/-- Claim C5: when the spawned `git commit` returns a non-success status,
the wrapper reports the specific "Nothing to commit, working tree clean"
error exactly on the stderr texts whose content indicates nothing staged
(those containing "nothing to commit"), reports the raw stderr as a generic
commit failure on every other such status, and in either case any workflow
whose commit subprocess behaves this way exits with failure. -/
theorem commit_failure_reporting (m : String) (v : Bool) (out : CmdOutput)
    (h : out.success = false) :
    (strContains out.stderr "nothing to commit" = true →
      (run_git_commit m v (Except.ok out)).res =
        Except.error "Nothing to commit, working tree clean") ∧
    (strContains out.stderr "nothing to commit" = false →
      (run_git_commit m v (Except.ok out)).res =
        Except.error ("git commit failed: " ++ out.stderr)) ∧
    (∀ args env, env.commitExec = Except.ok out → (mainRun args env).exitCode = 1) := by
  refine ⟨?_, ?_, ?_⟩
  · intro hc
    simp [run_git_commit, h, hc]
  · intro hc
    simp [run_git_commit, h, hc]
  · intro args env hce
    rcases exitCode_zero_or_one args env with h0 | h1
    · exfalso
      rcases (exitCode_zero_iff args env).mp h0 with ⟨_, _, m', _, hC, _⟩
      rw [hce] at hC
      cases hsc : strContains out.stderr "nothing to commit" with
      | true => simp [run_git_commit, h, hsc] at hC
      | false => simp [run_git_commit, h, hsc] at hC
    · exact h1

/-- Witness for claim C5: a failed commit with a clean-tree stderr yields
the specific error, and a whole run with that commit outcome exits 1. -/
theorem commit_failure_witness :
    (run_git_commit "msg" false (Except.ok cleanOut)).res =
      Except.error "Nothing to commit, working tree clean" ∧
    (mainRun argsM envCommitClean).exitCode = 1 :=
  ⟨(commit_failure_reporting "msg" false cleanOut rfl).1 (by decide),
   (commit_failure_reporting "msg" false cleanOut rfl).2.2 argsM envCommitClean rfl⟩

/-- Claim C6: every push invocation of any run names the fixed remote
"origin" and the branch supplied via the origin option, defaulting to
"main"; on a fully successful run the push with exactly that remote and
branch does occur. -/
theorem push_targets (args : Args) (env : Env) :
    (∀ r b, GitCmd.push r b ∈ (mainRun args env).calls →
      r = "origin" ∧ b = args.origin.getD "main") ∧
    ((mainRun args env).exitCode = 0 →
      GitCmd.push "origin" (args.origin.getD "main") ∈ (mainRun args env).calls) := by
  constructor
  · intro r b hb
    exact push_call_shape hb
  · intro h0
    rcases (exitCode_zero_iff args env).mp h0 with ⟨hg, hA, mm, hM, hC, hP⟩
    rw [mainRun_allOk args env hg hA hM hC hP]
    simp

/-- Witness for claim C6: with the origin option set to "feature-x" the
successful run pushes `origin feature-x`. -/
theorem push_targets_witness :
    GitCmd.push "origin" "feature-x" ∈ (mainRun argsM envAllOk).calls :=
  (push_targets argsM envAllOk).2 (by rfl)

/-- Claim C7: whenever the commit operation is invoked, the message it
receives is non-empty after trimming whitespace. -/
theorem commit_message_nonempty (args : Args) (env : Env) (m : String)
    (h : GitCmd.commit m ∈ (mainRun args env).calls) :
    (trim m).isEmpty = false :=
  get_commit_message_ok_trim (commit_call_acquired h)

/-- Witness for claim C7. -/
theorem commit_message_nonempty_witness :
    (trim "  fix bug  ").isEmpty = false :=
  commit_message_nonempty argsM envAllOk "  fix bug  " (by decide)

/-- Claim C8: the exit code is 0 exactly when the precondition holds and
staging, message acquisition, commit and push all succeed — in which case
the success confirmation is printed — and the only other exit code, taken on
every failure, is 1. -/
theorem exit_code_spec (args : Args) (env : Env) :
    ((mainRun args env).exitCode = 0 ∨ (mainRun args env).exitCode = 1) ∧
    ((mainRun args env).exitCode = 0 ↔
      (env.gitDirExists = true ∧
       (run_git_add args.verbose env.addExec).res = Except.ok () ∧
       ∃ m, (get_commit_message args.message env.promptResult).1 = Except.ok m ∧
         (run_git_commit m args.verbose env.commitExec).res = Except.ok () ∧
         (run_git_push (args.origin.getD "main") args.verbose env.pushExec).res =
           Except.ok ())) ∧
    ((mainRun args env).exitCode = 0 →
      "✓ Successfully pushed the code!" ∈ (mainRun args env).printed) := by
  refine ⟨exitCode_zero_or_one args env, exitCode_zero_iff args env, ?_⟩
  intro h0
  rcases (exitCode_zero_iff args env).mp h0 with ⟨hg, hA, m, hM, hC, hP⟩
  rw [mainRun_allOk args env hg hA hM hC hP]
  simp

/-- Witness for claim C8: the all-success run exits 0 and prints the
success confirmation. -/
theorem exit_code_witness :
    (mainRun argsM envAllOk).exitCode = 0 ∧
    "✓ Successfully pushed the code!" ∈ (mainRun argsM envAllOk).printed :=
  ⟨rfl, (exit_code_spec argsM envAllOk).2.2 rfl⟩

/-- Claim C9: on push success with verbose enabled, the emitted output
stream contains the entire captured stdout and the entire captured stderr of
the push operation. -/
theorem push_verbose_emits (b : String) (out : CmdOutput) (h : out.success = true) :
    out.stdout.data <:+: emitted (run_git_push b true (Except.ok out)).printed ∧
    out.stderr.data <:+: emitted (run_git_push b true (Except.ok out)).printed := by
  constructor
  · cases he : out.stdout.isEmpty with
    | true =>
        have h0 : out.stdout = "" := (String.isEmpty_iff out.stdout).mp he
        rw [h0]
        exact ⟨[], emitted (run_git_push b true (Except.ok out)).printed, by simp⟩
    | false =>
        apply mem_emitted
        simp [run_git_push, h, he]
  · cases he : out.stderr.isEmpty with
    | true =>
        have h0 : out.stderr = "" := (String.isEmpty_iff out.stderr).mp he
        rw [h0]
        exact ⟨[], emitted (run_git_push b true (Except.ok out)).printed, by simp⟩
    | false =>
        apply mem_emitted
        simp [run_git_push, h, he]

/-- Witness for claim C9. -/
theorem push_verbose_witness :
    ("push stdout".data <:+: emitted (run_git_push "main" true (Except.ok okOut)).printed) ∧
    ("push stderr".data <:+: emitted (run_git_push "main" true (Except.ok okOut)).printed) :=
  push_verbose_emits "main" okOut rfl

/-- Claim C10: for a commit subprocess that ran and returned non-success,
the specific "Nothing to commit, working tree clean" error is reported if
and only if the captured stderr contains the substring "nothing to commit"
anywhere. -/
theorem nothing_to_commit_iff (m : String) (v : Bool) (out : CmdOutput)
    (h : out.success = false) :
    ((run_git_commit m v (Except.ok out)).res =
        Except.error "Nothing to commit, working tree clean" ↔
      "nothing to commit".data <:+: out.stderr.data) := by
  cases hsc : strContains out.stderr "nothing to commit" with
  | true =>
      constructor
      · intro _
        exact (strContains_iff out.stderr "nothing to commit").mp hsc
      · intro _
        simp [run_git_commit, h, hsc]
  | false =>
      constructor
      · intro hres
        exfalso
        have hres2 : (run_git_commit m v (Except.ok out)).res =
            Except.error ("git commit failed: " ++ out.stderr) := by
          simp [run_git_commit, h, hsc]
        rw [hres2] at hres
        exact absurd (Except.error.inj hres) (generic_commit_error_ne out.stderr)
      · intro hIn
        exfalso
        have h2 : strContains out.stderr "nothing to commit" = true :=
          (strContains_iff out.stderr "nothing to commit").mpr hIn
        rw [hsc] at h2
        exact absurd h2 (by decide)

/-- Witness for claim C10. -/
theorem nothing_to_commit_witness :
    ((run_git_commit "msg2" false (Except.ok cleanOut)).res =
        Except.error "Nothing to commit, working tree clean" ↔
      "nothing to commit".data <:+: cleanOut.stderr.data) :=
  nothing_to_commit_iff "msg2" false cleanOut rfl
